import Mathlib

/-!
Shallow embedding of the stock-trading database service (FastAPI + MongoDB
routers under app/routers) and proofs about its handlers.

Conventions of the embedding:
* Mongo collections are Lean lists of document structures; find_one is a
  first-match lookup and update_one updates the first matching document.
* Monetary values (prices, balances, totals) are embedded as integers and
  volumes as integers. The source stores prices and balances as Python
  floats; every property under verification is arithmetic of an ordered
  ring (products, differences, sign checks), so the embedding uses the
  fully computable integers for them.
* A handler is a pure function from its request arguments, the
  authenticated user document (the result of get_current_user) and the
  database state, to a pair of (Except HTTPError response) and the database
  state after the handler ran; every write the source performs before an
  exception is raised is reflected in the returned state.
* Fields that some document shapes carry and others omit (schemaless Mongo
  documents) are embedded as Option fields; reading a missing key, which in
  the source raises an uncaught KeyError or TypeError surfaced by the
  framework as HTTP 500, is embedded as an explicit 500 error.
* Generated identifiers (generate_custom_id, uuid4, ObjectId) are passed in
  as extra parameters, since the embedding is deterministic.
-/

namespace StockService

/-- Market document (app/models/market_model.py); only the fields the
handlers under verification read. The singleton record has marketID 1. -/
structure Market where
  marketID : Nat
  status : String
deriving Repr, DecidableEq

/-- Stock document (app/models/stock_model.py). marketStatus is optional
because handlers read it with a default: stock.get of marketStatus. -/
structure Stock where
  stockID : String
  stockTicker : String
  companyName : String
  volume : Int
  initialPrice : ℤ
  currentPrice : ℤ
  openingPrice : ℤ
  highPrice : ℤ
  lowPrice : ℤ
  marketStatus : Option String
deriving Repr, DecidableEq

/-- User document as stored by the user router. The portfolio maps a stock
ticker to a share count. The source stores account and portfolio as null
for admin users; this embedding keeps a balance and portfolio field on
every document (the handlers under verification only read them on
customer-shaped documents). -/
structure UserDoc where
  userID : Nat
  username : String
  email : String
  password : String
  userType : String
  balance : ℤ
  portfolio : List (String × Int)
  isActive : Bool
deriving Repr, DecidableEq

/-- Order document. The customer router writes the total under the key
orderTotal, while execute_order in the order router writes it under the
key order_total; both are optional here, mirroring the two shapes.
stockTicker is absent on deposit and withdrawal orders. -/
structure OrderDoc where
  orderID : String
  username : String
  stockTicker : Option String
  orderType : String
  volume : Int
  orderTotal : Option ℤ
  order_total : Option ℤ
  status : String
  marketStatus : String
deriving Repr, DecidableEq

/-- Transaction document. Buy and sell transactions carry the trade
fields; deposit and withdrawal transactions carry transactionType, amount
and balanceAfter; execute_order writes no transactionID. -/
structure TransactionDoc where
  transactionID : Option String
  orderID : String
  username : String
  stockTicker : Option String
  volume : Option Int
  price : Option ℤ
  totalPrice : Option ℤ
  transactionType : Option String
  amount : Option ℤ
  balanceAfter : Option ℤ
deriving Repr, DecidableEq

/-- Account document in the separate accounts collection used by the
account router (update_account_balance queries it by username). -/
structure AccountDoc where
  username : String
  balance : ℤ
deriving Repr, DecidableEq

/-- The database: one field per Mongo collection touched by the handlers,
plus the optional singleton market record. -/
structure DB where
  market : Option Market
  stocks : List Stock
  users : List UserDoc
  orders : List OrderDoc
  transactions : List TransactionDoc
  accounts : List AccountDoc
deriving Repr, DecidableEq

/-- The detail payload of a FastAPI HTTPException: either a JSON object
with an error message and a short code string, or a plain message string. -/
inductive ErrDetail where
  | obj (error : String) (code : String)
  | msg (text : String)
deriving Repr, DecidableEq

/-- The short code string of an error detail, when it has one. -/
def ErrDetail.code? : ErrDetail → Option String
  | .obj _ c => some c
  | .msg _ => none

/-- An HTTPException as raised by the handlers. -/
structure HTTPError where
  statusCode : Nat
  detail : ErrDetail
deriving Repr, DecidableEq

/-- find_one on the users collection by username (first match). -/
def findUser : List UserDoc → String → Option UserDoc
  | [], _ => none
  | u :: rest, uname => if u.username = uname then some u else findUser rest uname

/-- find_one on the stocks collection by stockTicker (first match). -/
def findStock : List Stock → String → Option Stock
  | [], _ => none
  | s :: rest, t => if s.stockTicker = t then some s else findStock rest t

/-- find_one on the orders collection by the order identifier. The source
looks orders up by their Mongo _id; the embedding uses orderID as the
document identity. -/
def findOrder : List OrderDoc → String → Option OrderDoc
  | [], _ => none
  | o :: rest, oid => if o.orderID = oid then some o else findOrder rest oid

/-- find_one on the accounts collection by username (first match). -/
def findAccount : List AccountDoc → String → Option AccountDoc
  | [], _ => none
  | a :: rest, uname => if a.username = uname then some a else findAccount rest uname

/-- update_one on the users collection: apply f to the first document
whose username matches, leave everything else unchanged. -/
def updateFirstUser : List UserDoc → String → (UserDoc → UserDoc) → List UserDoc
  | [], _, _ => []
  | u :: rest, uname, f =>
    if u.username = uname then f u :: rest else u :: updateFirstUser rest uname f

/-- update_one on the orders collection by order identifier. -/
def updateFirstOrder : List OrderDoc → String → (OrderDoc → OrderDoc) → List OrderDoc
  | [], _, _ => []
  | o :: rest, oid, f =>
    if o.orderID = oid then f o :: rest else o :: updateFirstOrder rest oid f

/-- update_one on the accounts collection by username. -/
def updateFirstAccount : List AccountDoc → String → (AccountDoc → AccountDoc) → List AccountDoc
  | [], _, _ => []
  | a :: rest, uname, f =>
    if a.username = uname then f a :: rest else a :: updateFirstAccount rest uname f

/-- portfolio.get(ticker, 0): the share count held for a ticker, 0 when
the ticker has no entry. -/
def portfolioGet (p : List (String × Int)) (t : String) : Int :=
  match p with
  | [] => 0
  | kv :: rest => if kv.1 = t then kv.2 else portfolioGet rest t

/-- Mongo increment of portfolio.ticker by d: increments an existing
entry, or creates the entry with value d when the key is absent. -/
def portfolioInc (p : List (String × Int)) (t : String) (d : Int) : List (String × Int) :=
  match p with
  | [] => [(t, d)]
  | kv :: rest => if kv.1 = t then (kv.1, kv.2 + d) :: rest else kv :: portfolioInc rest t d

/-- Mongo set of portfolio.ticker to v: overwrites an existing entry, or
creates the entry when the key is absent. -/
def portfolioSet (p : List (String × Int)) (t : String) (v : Int) : List (String × Int) :=
  match p with
  | [] => [(t, v)]
  | kv :: rest => if kv.1 = t then (kv.1, v) :: rest else kv :: portfolioSet rest t v

/-- Mongo unset of portfolio.ticker: removes the entry for the ticker. -/
def portfolioUnset (p : List (String × Int)) (t : String) : List (String × Int) :=
  match p with
  | [] => []
  | kv :: rest => if kv.1 = t then rest else kv :: portfolioUnset rest t

/-- The balance of the first user document with the given username. -/
def userBalance (db : DB) (uname : String) : Option ℤ :=
  (findUser db.users uname).map (fun u => u.balance)

/-- The holding of the first user document with the given username for a
ticker (0 when the ticker has no portfolio entry). -/
def userHolding (db : DB) (uname t : String) : Option Int :=
  (findUser db.users uname).map (fun u => portfolioGet u.portfolio t)

/-- Request body of the customer buy endpoint (BuyStockRequest). -/
structure BuyStockRequest where
  stock_ticker : String
  volume : Int
deriving Repr, DecidableEq

/-- Request body of the customer sell endpoint (SellStockRequest). -/
structure SellStockRequest where
  stock_ticker : String
  volume : Int
deriving Repr, DecidableEq

/-- Embedding of buy_stock (app/routers/customer_router.py, lines 57-136).
order_id and transaction_id stand for the two generate_custom_id calls. -/
def buy_stock (buy : BuyStockRequest) (user : UserDoc) (order_id transaction_id : String)
    (db : DB) : Except HTTPError String × DB :=
  if buy.volume ≤ 0 then
    (.error ⟨400, .obj "Volume must be greater than 0" "INVALID_VOLUME"⟩, db)
  else
    match db.market with
    | none =>
      (.error ⟨400, .obj "Market is closed. Transactions cannot be processed." "MARKET_CLOSED"⟩,
        db)
    | some market =>
      if market.status ≠ "open" then
        (.error ⟨400, .obj "Market is closed. Transactions cannot be processed." "MARKET_CLOSED"⟩,
          db)
      else
        match findStock db.stocks buy.stock_ticker with
        | none => (.error ⟨404, .obj "Stock not found" "STOCK_NOT_FOUND"⟩, db)
        | some stock =>
          let current_price := stock.currentPrice
          let total_cost := buy.volume * current_price
          if user.balance < total_cost then
            (.error ⟨400, .obj "Insufficient balance" "INSUFFICIENT_BALANCE"⟩, db)
          else
            let order : OrderDoc :=
              { orderID := order_id, username := user.username,
                stockTicker := some buy.stock_ticker, orderType := "buy",
                volume := buy.volume, orderTotal := some total_cost, order_total := none,
                status := "completed", marketStatus := stock.marketStatus.getD "open" }
            let db := { db with orders := db.orders ++ [order] }
            let txn : TransactionDoc :=
              { transactionID := some transaction_id, orderID := order_id,
                username := user.username, stockTicker := some buy.stock_ticker,
                volume := some buy.volume, price := some current_price,
                totalPrice := some total_cost, transactionType := none,
                amount := none, balanceAfter := none }
            let db := { db with transactions := db.transactions ++ [txn] }
            let db :=
              { db with
                users := updateFirstUser db.users user.username (fun u =>
                  { u with balance := u.balance - total_cost,
                           portfolio := portfolioInc u.portfolio buy.stock_ticker buy.volume }) }
            (.ok "Stock purchased successfully", db)

/-- Embedding of sell_stock (app/routers/customer_router.py, lines
149-237). -/
def sell_stock (sell : SellStockRequest) (user : UserDoc) (order_id transaction_id : String)
    (db : DB) : Except HTTPError String × DB :=
  if sell.volume ≤ 0 then
    (.error ⟨400, .obj "Volume must be greater than 0" "INVALID_VOLUME"⟩, db)
  else
    match db.market with
    | none =>
      (.error ⟨400, .obj "Market is closed. Transactions cannot be processed." "MARKET_CLOSED"⟩,
        db)
    | some market =>
      if market.status ≠ "open" then
        (.error ⟨400, .obj "Market is closed. Transactions cannot be processed." "MARKET_CLOSED"⟩,
          db)
      else
        match findStock db.stocks sell.stock_ticker with
        | none => (.error ⟨404, .obj "Stock not found" "STOCK_NOT_FOUND"⟩, db)
        | some stock =>
          let current_price := stock.currentPrice
          let total_earnings := sell.volume * current_price
          if portfolioGet user.portfolio sell.stock_ticker < sell.volume then
            (.error ⟨400, .obj "Insufficient stock holdings" "INSUFFICIENT_HOLDINGS"⟩, db)
          else
            let order : OrderDoc :=
              { orderID := order_id, username := user.username,
                stockTicker := some sell.stock_ticker, orderType := "sell",
                volume := sell.volume, orderTotal := some total_earnings, order_total := none,
                status := "completed", marketStatus := stock.marketStatus.getD "open" }
            let db := { db with orders := db.orders ++ [order] }
            let txn : TransactionDoc :=
              { transactionID := some transaction_id, orderID := order_id,
                username := user.username, stockTicker := some sell.stock_ticker,
                volume := some sell.volume, price := some current_price,
                totalPrice := some total_earnings, transactionType := none,
                amount := none, balanceAfter := none }
            let db := { db with transactions := db.transactions ++ [txn] }
            let db :=
              { db with
                users := updateFirstUser db.users user.username (fun u =>
                  { u with balance := u.balance + total_earnings,
                           portfolio := portfolioInc u.portfolio sell.stock_ticker
                             (-sell.volume) }) }
            -- Remove the portfolio entry when its quantity became zero.
            let db :=
              match findUser db.users user.username with
              | none => db
              | some u2 =>
                if portfolioGet u2.portfolio sell.stock_ticker = 0 then
                  { db with
                    users := updateFirstUser db.users user.username (fun u =>
                      { u with portfolio := portfolioUnset u.portfolio sell.stock_ticker }) }
                else db
            (.ok "Stock sold successfully", db)

/-- Request body of execute_order (OrderCreate in
app/models/order_model.py). The pydantic model enforces volume >= 1 and
generates an integer orderID when one is missing; the embedding carries
the already-generated identifier as a string. -/
structure OrderCreate where
  username : String
  stockTicker : String
  orderType : String
  volume : Int
  status : String
  marketStatus : String
  orderID : String
deriving Repr, DecidableEq

/-- Embedding of execute_order (app/routers/order_router.py, lines
29-111). No market-status check appears in the source. The insert of the
order document followed by the update of the same document by _id to
status completed is embedded as an append followed by List.set at the
position of the appended document. -/
def execute_order (order : OrderCreate) (user : UserDoc) (db : DB) :
    Except HTTPError OrderDoc × DB :=
  match findStock db.stocks order.stockTicker with
  | none => (.error ⟨404, .obj "Stock not found" "STOCK_NOT_FOUND"⟩, db)
  | some stock =>
    let current_price := stock.currentPrice
    let total_price := current_price * order.volume
    let finish : DB → Except HTTPError OrderDoc × DB := fun db =>
      let order_data : OrderDoc :=
        { orderID := order.orderID, username := user.username,
          stockTicker := some order.stockTicker, orderType := order.orderType,
          volume := order.volume, orderTotal := none, order_total := some total_price,
          status := order.status, marketStatus := order.marketStatus }
      let idx := db.orders.length
      let db := { db with orders := db.orders ++ [order_data] }
      let txn : TransactionDoc :=
        { transactionID := none, orderID := order.orderID, username := user.username,
          stockTicker := some order.stockTicker, volume := some order.volume,
          price := some current_price, totalPrice := some total_price,
          transactionType := none, amount := none, balanceAfter := none }
      let db := { db with transactions := db.transactions ++ [txn] }
      let db :=
        { db with orders := db.orders.set idx { order_data with status := "completed" } }
      (.ok { order_data with status := "completed" }, db)
    if order.orderType = "buy" then
      if user.balance < total_price then
        (.error ⟨400, .obj "Insufficient balance" "INSUFFICIENT_BALANCE"⟩, db)
      else
        let updated_balance := user.balance - total_price
        let db :=
          { db with
            users := updateFirstUser db.users user.username (fun u =>
              { u with balance := updated_balance }) }
        finish db
    else if order.orderType = "sell" then
      if portfolioGet user.portfolio order.stockTicker < order.volume then
        (.error ⟨400, .obj "Insufficient stock holdings" "INSUFFICIENT_STOCKS"⟩, db)
      else
        let updated_portfolio := portfolioGet user.portfolio order.stockTicker - order.volume
        let db :=
          { db with
            users := updateFirstUser db.users user.username (fun u =>
              { u with portfolio := portfolioSet u.portfolio order.stockTicker updated_portfolio,
                       balance := user.balance + total_price }) }
        finish db
    else
      finish db

/-- Embedding of cancel_order (app/routers/order_router.py, lines
123-172). Reading the orderTotal key of a buy order that lacks it, or the
stockTicker key of a sell order that lacks it, raises an uncaught KeyError
in the source, surfaced by the framework as HTTP 500. -/
def cancel_order (order_id : String) (user : UserDoc) (db : DB) :
    Except HTTPError String × DB :=
  match findOrder db.orders order_id with
  | none => (.error ⟨404, .obj "Order not found" "ORDER_NOT_FOUND"⟩, db)
  | some order =>
    if user.userType ≠ "admin" ∧ order.username ≠ user.username then
      (.error ⟨403, .msg "Access denied."⟩, db)
    else if order.status = "completed" ∨ order.status = "canceled" then
      (.error ⟨400,
        .obj "Cannot cancel a completed or already canceled order" "INVALID_ORDER_STATUS"⟩, db)
    else if order.orderType = "buy" then
      match order.orderTotal with
      | none => (.error ⟨500, .msg "KeyError: orderTotal"⟩, db)
      | some refund_amount =>
        let db :=
          { db with
            users := updateFirstUser db.users user.username (fun u =>
              { u with balance := u.balance + refund_amount }) }
        let db :=
          { db with
            orders := updateFirstOrder db.orders order_id (fun o =>
              { o with status := "canceled" }) }
        (.ok "Order canceled successfully", db)
    else if order.orderType = "sell" then
      match order.stockTicker with
      | none => (.error ⟨500, .msg "KeyError: stockTicker"⟩, db)
      | some stock_ticker =>
        let volume := order.volume
        let db :=
          { db with
            users := updateFirstUser db.users user.username (fun u =>
              { u with portfolio := portfolioInc u.portfolio stock_ticker volume }) }
        let db :=
          { db with
            orders := updateFirstOrder db.orders order_id (fun o =>
              { o with status := "canceled" }) }
        (.ok "Order canceled successfully", db)
    else
      let db :=
        { db with
          orders := updateFirstOrder db.orders order_id (fun o =>
            { o with status := "canceled" }) }
      (.ok "Order canceled successfully", db)

/-- Embedding of withdraw_cash (app/routers/customer_router.py, lines
328-411). The find_one_and_update with a username filter that matches
nothing changes nothing and yields the 404 branch; the embedding checks
the match first, which is equivalent. -/
def withdraw_cash (amount : ℤ) (user : UserDoc) (order_id transaction_id : String)
    (db : DB) : Except HTTPError String × DB :=
  if amount ≤ 0 then
    (.error ⟨400, .obj "Withdrawal amount must be greater than zero" "INVALID_AMOUNT"⟩, db)
  else if user.balance < amount then
    (.error ⟨400, .obj "Insufficient balance for withdrawal" "INSUFFICIENT_BALANCE"⟩, db)
  else
    match findUser db.users user.username with
    | none => (.error ⟨404, .obj "User not found" "USER_NOT_FOUND"⟩, db)
    | some u0 =>
      let db :=
        { db with
          users := updateFirstUser db.users user.username (fun u =>
            { u with balance := u.balance - amount }) }
      let order : OrderDoc :=
        { orderID := order_id, username := user.username, stockTicker := none,
          orderType := "withdrawal", volume := 0, orderTotal := some amount,
          order_total := none, status := "completed", marketStatus := "N/A" }
      let db := { db with orders := db.orders ++ [order] }
      let txn : TransactionDoc :=
        { transactionID := some transaction_id, orderID := order_id,
          username := user.username, stockTicker := none, volume := none,
          price := none, totalPrice := none, transactionType := some "withdrawal",
          amount := some amount, balanceAfter := some (u0.balance - amount) }
      let db := { db with transactions := db.transactions ++ [txn] }
      (.ok "Cash withdrawn successfully", db)

/-- Request body of signup and of update_user_details (UserSignup in
app/models/user_model.py). -/
structure UserSignup where
  username : String
  email : String
  password : String
  userType : String
deriving Repr, DecidableEq

/-- Embedding of add_user, the signup handler (app/routers/user_router.py,
lines 32-71). user_id stands for the generated unique userID and
hashed_password for the bcrypt hash. The source stores null account and
portfolio for admin users; the embedding stores a zero balance and empty
portfolio on every new document. -/
def add_user (user : UserSignup) (user_id : Nat) (hashed_password : String)
    (db : DB) : Except HTTPError String × DB :=
  match findUser db.users user.username with
  | some _ =>
    (.error ⟨400,
      .obj ("Username " ++ user.username ++ " already exists.") "USERNAME_EXISTS"⟩, db)
  | none =>
    let new_user : UserDoc :=
      { userID := user_id, username := user.username, email := user.email,
        password := hashed_password, userType := user.userType,
        balance := 0, portfolio := [], isActive := true }
    (.ok "User created successfully", { db with users := db.users ++ [new_user] })

/-- Embedding of update_user_details (app/routers/user_router.py, lines
153-189). The new username is written without any uniqueness check. The
update_one with a filter that matches nothing is a no-op with
matched_count 0, yielding the 404; the embedding checks the match first,
which is equivalent. The trailing find_one by the new username returning
nothing makes the source raise an uncaught TypeError, surfaced as 500. -/
def update_user_details (username : String) (user : UserSignup) (current_user : UserDoc)
    (hashed_password : String) (db : DB) : Except HTTPError UserDoc × DB :=
  if current_user.userType ≠ "admin" ∧ current_user.username ≠ username then
    (.error ⟨403, .msg "Access denied."⟩, db)
  else
    match findUser db.users username with
    | none => (.error ⟨404, .msg "User not found"⟩, db)
    | some _ =>
      let db :=
        { db with
          users := updateFirstUser db.users username (fun u =>
            { u with username := user.username, email := user.email,
                     password := hashed_password }) }
      match findUser db.users user.username with
      | none => (.error ⟨500, .msg "TypeError: updated user not found"⟩, db)
      | some updated_user => (.ok updated_user, db)

/-- Embedding of remove_user (app/routers/user_router.py, lines 118-144):
deactivates a user by setting isActive to false. -/
def remove_user (username : String) (current_user : UserDoc) (db : DB) :
    Except HTTPError String × DB :=
  if current_user.userType ≠ "admin" ∧ current_user.username ≠ username then
    (.error ⟨403, .msg "Access denied."⟩, db)
  else
    match findUser db.users username with
    | none => (.error ⟨404, .msg "User not found"⟩, db)
    | some _ =>
      (.ok ("User " ++ username ++ " deactivated successfully"),
        { db with
          users := updateFirstUser db.users username (fun u => { u with isActive := false }) })

/-- Request body of add_new_stock (StockCreate in
app/models/stock_model.py); stockID is optional and generated when
missing. -/
structure StockCreate where
  stockTicker : String
  companyName : String
  volume : Int
  initialPrice : ℤ
  currentPrice : ℤ
  openingPrice : ℤ
  highPrice : ℤ
  lowPrice : ℤ
  marketStatus : String
  stockID : Option String
deriving Repr, DecidableEq

/-- Embedding of add_new_stock (app/routers/stock_router.py, lines 25-49).
generated_id stands for the uuid4 call; the source treats an empty
stockID string as missing (falsy), and so does the embedding. -/
def add_new_stock (stock : StockCreate) (generated_id : String) (db : DB) :
    Except HTTPError Stock × DB :=
  let sid : String :=
    match stock.stockID with
    | none => generated_id
    | some s => if s = "" then generated_id else s
  match findStock db.stocks stock.stockTicker with
  | some _ => (.error ⟨400, .obj "Stock already exists" "STOCK_ALREADY_EXISTS"⟩, db)
  | none =>
    let stock_data : Stock :=
      { stockID := sid, stockTicker := stock.stockTicker,
        companyName := stock.companyName, volume := stock.volume,
        initialPrice := stock.initialPrice, currentPrice := stock.currentPrice,
        openingPrice := stock.openingPrice, highPrice := stock.highPrice,
        lowPrice := stock.lowPrice, marketStatus := some stock.marketStatus }
    (.ok stock_data, { db with stocks := db.stocks ++ [stock_data] })

/-- Embedding of update_account_balance (app/routers/account_router.py,
lines 121-158), which sets the balance of the document in the accounts
collection matching the username. The update_one matching nothing is a
no-op with matched_count 0, yielding the 404; the embedding checks the
match first, which is equivalent. -/
def update_account_balance (username : String) (balance : ℤ) (current_user : UserDoc)
    (db : DB) : Except HTTPError AccountDoc × DB :=
  if balance < 0 then
    (.error ⟨400, .obj "Balance cannot be negative" "INVALID_BALANCE"⟩, db)
  else if current_user.userType ≠ "admin" ∧ current_user.username ≠ username then
    (.error ⟨403, .msg "Access denied."⟩, db)
  else
    match findAccount db.accounts username with
    | none => (.error ⟨404, .obj "Account not found" "ACCOUNT_NOT_FOUND"⟩, db)
    | some _ =>
      let db :=
        { db with
          accounts := updateFirstAccount db.accounts username (fun a =>
            { a with balance := balance }) }
      match findAccount db.accounts username with
      | none => (.error ⟨500, .msg "TypeError: updated account not found"⟩, db)
      | some updated_account => (.ok updated_account, db)

/-! Helper lemmas about the collection primitives. -/

theorem portfolioGet_portfolioInc_self (p : List (String × Int)) (t : String) (d : Int) :
    portfolioGet (portfolioInc p t d) t = portfolioGet p t + d := by
  induction p with
  | nil => simp [portfolioGet, portfolioInc]
  | cons kv rest ih =>
    by_cases h : kv.1 = t
    · simp [portfolioGet, portfolioInc, h]
    · simp [portfolioGet, portfolioInc, h, ih]

theorem findUser_updateFirstUser (users : List UserDoc) (uname v : String)
    (f : UserDoc → UserDoc) (hf : ∀ u, (f u).username = u.username) :
    findUser (updateFirstUser users uname f) v =
      if v = uname then (findUser users uname).map f else findUser users v := by
  induction users with
  | nil => simp [findUser, updateFirstUser]
  | cons u rest ih =>
    by_cases h1 : u.username = uname
    · by_cases h2 : v = uname
      · subst h2
        simp [findUser, updateFirstUser, h1, hf u]
      · have : (f u).username ≠ v := by rw [hf u, h1]; exact fun hc => h2 hc.symm
        have hu : u.username ≠ v := by rw [h1]; exact fun hc => h2 hc.symm
        simp [findUser, updateFirstUser, h1, this, hu, h2, Ne.symm h2]
    · by_cases h2 : v = uname
      · subst h2
        have hu : u.username ≠ v := fun hc => h1 hc
        simp [findUser, updateFirstUser, h1, hu, ih]
      · by_cases h3 : u.username = v
        · simp [findUser, updateFirstUser, h1, h3, h2]
        · simp [findUser, updateFirstUser, h1, h3, h2, ih]

theorem mem_updateFirstUser {users : List UserDoc} {uname : String}
    {f : UserDoc → UserDoc} {u' : UserDoc} (h : u' ∈ updateFirstUser users uname f) :
    u' ∈ users ∨ ∃ u, findUser users uname = some u ∧ u' = f u := by
  induction users with
  | nil => simp [updateFirstUser] at h
  | cons u rest ih =>
    by_cases h1 : u.username = uname
    · simp only [updateFirstUser, if_pos h1] at h
      rcases List.mem_cons.mp h with h2 | h2
      · exact Or.inr ⟨u, by simp [findUser, h1], h2⟩
      · exact Or.inl (List.mem_cons_of_mem _ h2)
    · simp only [updateFirstUser, if_neg h1] at h
      rcases List.mem_cons.mp h with h2 | h2
      · exact Or.inl (by simp [h2])
      · rcases ih h2 with h3 | ⟨w, hw1, hw2⟩
        · exact Or.inl (List.mem_cons_of_mem _ h3)
        · exact Or.inr ⟨w, by simp [findUser, h1, hw1], hw2⟩

theorem findAccount_updateFirstAccount (accounts : List AccountDoc) (uname v : String)
    (f : AccountDoc → AccountDoc) (hf : ∀ a, (f a).username = a.username) :
    findAccount (updateFirstAccount accounts uname f) v =
      if v = uname then (findAccount accounts uname).map f else findAccount accounts v := by
  induction accounts with
  | nil => simp [findAccount, updateFirstAccount]
  | cons a rest ih =>
    by_cases h1 : a.username = uname
    · by_cases h2 : v = uname
      · subst h2
        simp [findAccount, updateFirstAccount, h1, hf a]
      · have : (f a).username ≠ v := by rw [hf a, h1]; exact fun hc => h2 hc.symm
        have ha : a.username ≠ v := by rw [h1]; exact fun hc => h2 hc.symm
        simp [findAccount, updateFirstAccount, h1, this, ha, h2, Ne.symm h2]
    · by_cases h2 : v = uname
      · subst h2
        have ha : a.username ≠ v := fun hc => h1 hc
        simp [findAccount, updateFirstAccount, h1, ha, ih]
      · by_cases h3 : a.username = v
        · simp [findAccount, updateFirstAccount, h1, h3, h2]
        · simp [findAccount, updateFirstAccount, h1, h3, h2, ih]

theorem mem_updateFirstAccount {accounts : List AccountDoc} {uname : String}
    {f : AccountDoc → AccountDoc} {a' : AccountDoc}
    (h : a' ∈ updateFirstAccount accounts uname f) :
    a' ∈ accounts ∨ ∃ a, findAccount accounts uname = some a ∧ a' = f a := by
  induction accounts with
  | nil => simp [updateFirstAccount] at h
  | cons a rest ih =>
    by_cases h1 : a.username = uname
    · simp only [updateFirstAccount, if_pos h1] at h
      rcases List.mem_cons.mp h with h2 | h2
      · exact Or.inr ⟨a, by simp [findAccount, h1], h2⟩
      · exact Or.inl (List.mem_cons_of_mem _ h2)
    · simp only [updateFirstAccount, if_neg h1] at h
      rcases List.mem_cons.mp h with h2 | h2
      · exact Or.inl (by simp [h2])
      · rcases ih h2 with h3 | ⟨w, hw1, hw2⟩
        · exact Or.inl (List.mem_cons_of_mem _ h3)
        · exact Or.inr ⟨w, by simp [findAccount, h1, hw1], hw2⟩

theorem findOrder_updateFirstOrder (orders : List OrderDoc) (oid v : String)
    (f : OrderDoc → OrderDoc) (hf : ∀ o, (f o).orderID = o.orderID) :
    findOrder (updateFirstOrder orders oid f) v =
      if v = oid then (findOrder orders oid).map f else findOrder orders v := by
  induction orders with
  | nil => simp [findOrder, updateFirstOrder]
  | cons o rest ih =>
    by_cases h1 : o.orderID = oid
    · by_cases h2 : v = oid
      · subst h2
        simp [findOrder, updateFirstOrder, h1, hf o]
      · have : (f o).orderID ≠ v := by rw [hf o, h1]; exact fun hc => h2 hc.symm
        have ho : o.orderID ≠ v := by rw [h1]; exact fun hc => h2 hc.symm
        simp [findOrder, updateFirstOrder, h1, this, ho, h2, Ne.symm h2]
    · by_cases h2 : v = oid
      · subst h2
        have ho : o.orderID ≠ v := fun hc => h1 hc
        simp [findOrder, updateFirstOrder, h1, ho, ih]
      · by_cases h3 : o.orderID = v
        · simp [findOrder, updateFirstOrder, h1, h3, h2]
        · simp [findOrder, updateFirstOrder, h1, h3, h2, ih]

theorem set_length_append {α : Type _} (l : List α) (a b : α) :
    (l ++ [a]).set l.length b = l ++ [b] := by
  induction l with
  | nil => rfl
  | cons x xs ih => simp [List.set, ih]

theorem findUser_eq_none_iff (users : List UserDoc) (uname : String) :
    findUser users uname = none ↔ ∀ u ∈ users, u.username ≠ uname := by
  induction users with
  | nil => simp [findUser]
  | cons u rest ih =>
    by_cases h : u.username = uname
    · simp [findUser, h]
    · simp [findUser, h, ih]

theorem findStock_eq_none_iff (stocks : List Stock) (t : String) :
    findStock stocks t = none ↔ ∀ s ∈ stocks, s.stockTicker ≠ t := by
  induction stocks with
  | nil => simp [findStock]
  | cons s rest ih =>
    by_cases h : s.stockTicker = t
    · simp [findStock, h]
    · simp [findStock, h, ih]

/-! Concrete sample documents, used by witnesses and counterexamples. -/

/-- A sample stock with current price 50. -/
def aapl : Stock :=
  { stockID := "sid1", stockTicker := "AAPL", companyName := "Apple Inc.",
    volume := 10000, initialPrice := 10, currentPrice := 50, openingPrice := 48,
    highPrice := 55, lowPrice := 45, marketStatus := some "open" }

/-- A sample customer holding 5 AAPL shares and a balance of 1000. -/
def alice : UserDoc :=
  { userID := 1, username := "alice", email := "alice@example.com", password := "hpw1",
    userType := "customer", balance := 1000, portfolio := [("AAPL", 5)], isActive := true }

/-- A second sample customer with a balance of 200 and 3 AAPL shares. -/
def bob : UserDoc :=
  { userID := 2, username := "bob", email := "bob@example.com", password := "hpw2",
    userType := "customer", balance := 200, portfolio := [("AAPL", 3)], isActive := true }

/-- A sample admin user. -/
def carol : UserDoc :=
  { userID := 3, username := "carol", email := "carol@example.com", password := "hpw3",
    userType := "admin", balance := 0, portfolio := [], isActive := true }

/-- A sample database with the market open. -/
def baseDB : DB :=
  { market := some { marketID := 1, status := "open" }, stocks := [aapl],
    users := [alice, bob, carol], orders := [], transactions := [],
    accounts := [{ username := "alice", balance := 100 }] }

/-- The same database with the market closed. -/
def closedDB : DB := { baseDB with market := some { marketID := 1, status := "closed" } }

/-! ## C1 -/

/-- C1: every successful buy of volume v of a stock whose current price is
p through buy_stock computes the order total as v * p, records an order
with orderTotal = v * p and status completed, records a transaction with
price = p, volume = v and totalPrice = v * p, decreases the account
balance of the user by exactly v * p, and increases the portfolio entry of
that user for the ticker by exactly v. -/
theorem C1_buy_stock_effects
    (buy : BuyStockRequest) (user : UserDoc) (oid tid : String) (db : DB) (stock : Stock)
    (hst : findStock db.stocks buy.stock_ticker = some stock)
    (hu : findUser db.users user.username = some user)
    (r : String) (db' : DB)
    (h : buy_stock buy user oid tid db = (.ok r, db')) :
    db'.orders = db.orders ++
      [{ orderID := oid, username := user.username, stockTicker := some buy.stock_ticker,
         orderType := "buy", volume := buy.volume,
         orderTotal := some (buy.volume * stock.currentPrice), order_total := none,
         status := "completed", marketStatus := stock.marketStatus.getD "open" }] ∧
    db'.transactions = db.transactions ++
      [{ transactionID := some tid, orderID := oid, username := user.username,
         stockTicker := some buy.stock_ticker, volume := some buy.volume,
         price := some stock.currentPrice,
         totalPrice := some (buy.volume * stock.currentPrice),
         transactionType := none, amount := none, balanceAfter := none }] ∧
    userBalance db' user.username =
      some (user.balance - buy.volume * stock.currentPrice) ∧
    userHolding db' user.username buy.stock_ticker =
      some (portfolioGet user.portfolio buy.stock_ticker + buy.volume) := by
  unfold buy_stock at h
  split at h
  · exact absurd h (by simp)
  split at h
  · exact absurd h (by simp)
  split at h
  · exact absurd h (by simp)
  split at h
  · exact absurd h (by simp)
  rename_i s heq
  rw [hst] at heq
  injection heq with heq
  subst heq
  dsimp only at h
  split at h
  · exact absurd h (by simp)
  rw [Prod.mk.injEq] at h
  obtain ⟨h1, h2⟩ := h
  subst h2
  refine ⟨rfl, rfl, ?_, ?_⟩
  · unfold userBalance
    dsimp only
    rw [findUser_updateFirstUser]
    · rw [if_pos rfl, hu]
      rfl
    · exact fun u => rfl
  · unfold userHolding
    dsimp only
    rw [findUser_updateFirstUser]
    · rw [if_pos rfl, hu]
      simp [portfolioGet_portfolioInc_self]
    · exact fun u => rfl

/-- Witness for C1: alice buys 2 AAPL shares at price 50 in baseDB. -/
theorem C1_witness :
    (findStock baseDB.stocks "AAPL" = some aapl ∧
      findUser baseDB.users "alice" = some alice ∧
      buy_stock { stock_ticker := "AAPL", volume := 2 } alice "o1" "t1" baseDB =
        (.ok "Stock purchased successfully",
          (buy_stock { stock_ticker := "AAPL", volume := 2 } alice "o1" "t1" baseDB).2)) ∧
    ((buy_stock { stock_ticker := "AAPL", volume := 2 } alice "o1" "t1" baseDB).2.orders =
        baseDB.orders ++
      [{ orderID := "o1", username := alice.username, stockTicker := some "AAPL",
         orderType := "buy", volume := 2,
         orderTotal := some ((2 : ℤ) * aapl.currentPrice), order_total := none,
         status := "completed", marketStatus := aapl.marketStatus.getD "open" }] ∧
      (buy_stock { stock_ticker := "AAPL", volume := 2 } alice "o1" "t1" baseDB).2.transactions =
        baseDB.transactions ++
      [{ transactionID := some "t1", orderID := "o1", username := alice.username,
         stockTicker := some "AAPL", volume := some 2,
         price := some aapl.currentPrice,
         totalPrice := some ((2 : ℤ) * aapl.currentPrice),
         transactionType := none, amount := none, balanceAfter := none }] ∧
      userBalance (buy_stock { stock_ticker := "AAPL", volume := 2 } alice "o1" "t1" baseDB).2
        "alice" = some (alice.balance - (2 : ℤ) * aapl.currentPrice) ∧
      userHolding (buy_stock { stock_ticker := "AAPL", volume := 2 } alice "o1" "t1" baseDB).2
        "alice" "AAPL" = some (portfolioGet alice.portfolio "AAPL" + 2)) :=
  ⟨⟨by rfl, by rfl, by rfl⟩,
    C1_buy_stock_effects { stock_ticker := "AAPL", volume := 2 } alice "o1" "t1" baseDB aapl
      (by rfl) (by rfl) "Stock purchased successfully"
      (buy_stock { stock_ticker := "AAPL", volume := 2 } alice "o1" "t1" baseDB).2 (by rfl)⟩

/-! ## C2 -/

/-- A sample execute_order request: alice buys 2 AAPL shares. -/
def aliceBuyOrder : OrderCreate :=
  { username := "alice", stockTicker := "AAPL", orderType := "buy",
    volume := 2, status := "pending", marketStatus := "open", orderID := "eo1" }

/-- The order document execute_order returns for aliceBuyOrder at price
50. -/
def aliceBuyOrderDoc : OrderDoc :=
  { orderID := "eo1", username := "alice", stockTicker := some "AAPL",
    orderType := "buy", volume := 2, orderTotal := none, order_total := some 100,
    status := "completed", marketStatus := "open" }

/-- C2 counterexample: with the market record present and its status
"closed", execute_order still executes a buy successfully (it performs no
market-status check), refuting the claim that every successfully executed
order passed an open-market check. -/
theorem C2_counterexample :
    closedDB.market = some { marketID := 1, status := "closed" } ∧
    (∀ m, closedDB.market = some m → m.status ≠ "open") ∧
    (execute_order aliceBuyOrder alice closedDB).1 = .ok aliceBuyOrderDoc := by
  refine ⟨rfl, ?_, by rfl⟩
  intro m hm
  injection hm with h
  rw [← h]
  decide

/-- C2 (amended): buy_stock and sell_stock reject a trade with HTTP 400
and code MARKET_CLOSED, without writing any order, transaction, or user
update, whenever the market record is missing or its status is not
"open", and every successful buy_stock or sell_stock run had a market
record with status "open"; execute_order performs no market-status check
and can execute an order while the market is closed. -/
theorem C2_market_check :
    (∀ (buy : BuyStockRequest) (user : UserDoc) (oid tid : String) (db : DB),
      0 < buy.volume → (∀ m, db.market = some m → m.status ≠ "open") →
      buy_stock buy user oid tid db =
        (.error ⟨400,
          .obj "Market is closed. Transactions cannot be processed." "MARKET_CLOSED"⟩, db)) ∧
    (∀ (sell : SellStockRequest) (user : UserDoc) (oid tid : String) (db : DB),
      0 < sell.volume → (∀ m, db.market = some m → m.status ≠ "open") →
      sell_stock sell user oid tid db =
        (.error ⟨400,
          .obj "Market is closed. Transactions cannot be processed." "MARKET_CLOSED"⟩, db)) ∧
    (∀ (buy : BuyStockRequest) (user : UserDoc) (oid tid : String) (db : DB)
        (r : String) (db2 : DB),
      buy_stock buy user oid tid db = (.ok r, db2) →
      ∃ m, db.market = some m ∧ m.status = "open") ∧
    (∀ (sell : SellStockRequest) (user : UserDoc) (oid tid : String) (db : DB)
        (r : String) (db2 : DB),
      sell_stock sell user oid tid db = (.ok r, db2) →
      ∃ m, db.market = some m ∧ m.status = "open") ∧
    (∃ (o : OrderCreate) (u : UserDoc) (d : DB) (od : OrderDoc),
      (∀ m, d.market = some m → m.status ≠ "open") ∧
      (execute_order o u d).1 = .ok od) := by
  refine ⟨?_, ?_, ?_, ?_, ?_⟩
  · intro buy user oid tid db hb hclosed
    unfold buy_stock
    rw [if_neg (not_le.mpr hb)]
    cases hm : db.market with
    | none => rfl
    | some m =>
      dsimp only
      rw [if_pos (hclosed m hm)]
  · intro sell user oid tid db hs hclosed
    unfold sell_stock
    rw [if_neg (not_le.mpr hs)]
    cases hm : db.market with
    | none => rfl
    | some m =>
      dsimp only
      rw [if_pos (hclosed m hm)]
  · intro buy user oid tid db r db2 h
    unfold buy_stock at h
    split at h
    · exact absurd h (by simp)
    rename_i hm0
    split at h
    · exact absurd h (by simp)
    rename_i m hm
    split at h
    · exact absurd h (by simp)
    rename_i hso
    exact ⟨m, hm, not_not.mp hso⟩
  · intro sell user oid tid db r db2 h
    unfold sell_stock at h
    split at h
    · exact absurd h (by simp)
    rename_i hm0
    split at h
    · exact absurd h (by simp)
    rename_i m hm
    split at h
    · exact absurd h (by simp)
    rename_i hso
    exact ⟨m, hm, not_not.mp hso⟩
  · refine ⟨aliceBuyOrder, alice, closedDB, aliceBuyOrderDoc, ?_, by rfl⟩
    intro m hm
    injection hm with h
    rw [← h]
    decide

/-- Witness for C2 (amended): with positive volume and the market closed,
buy_stock on closedDB returns the MARKET_CLOSED error and leaves the
database unchanged. -/
theorem C2_witness :
    ((0 : ℤ) < 2 ∧ (∀ m, closedDB.market = some m → m.status ≠ "open")) ∧
    buy_stock { stock_ticker := "AAPL", volume := 2 } alice "o2" "t2" closedDB =
      (.error ⟨400,
        .obj "Market is closed. Transactions cannot be processed." "MARKET_CLOSED"⟩,
        closedDB) := by
  have hclosed : ∀ m, closedDB.market = some m → m.status ≠ "open" := by
    intro m hm
    injection hm with h
    rw [← h]
    decide
  exact ⟨⟨by decide, hclosed⟩,
    C2_market_check.1 { stock_ticker := "AAPL", volume := 2 } alice "o2" "t2" closedDB
      (by decide) hclosed⟩

/-! ## C3 -/

/-- Every user document in the database has a non-negative balance. -/
def balancesNonneg (db : DB) : Prop := ∀ u ∈ db.users, 0 ≤ u.balance

/-- Every account document in the accounts collection has a non-negative
balance. -/
def accountsNonneg (db : DB) : Prop := ∀ a ∈ db.accounts, 0 ≤ a.balance

/-- C3: the account balance of a user cannot go negative. buy_stock,
withdraw_cash and execute_order with orderType buy preserve
non-negativity of every stored balance (given that the authenticated user
document is the stored one); debits exceeding the balance are rejected
with HTTP 400 and code INSUFFICIENT_BALANCE once the earlier
prerequisites (market, stock, amount validation) pass; and a direct
balance update with a negative value is rejected with HTTP 400 and code
INVALID_BALANCE. -/
theorem C3_balance_nonneg :
    (∀ (buy : BuyStockRequest) (user : UserDoc) (oid tid : String) (db : DB),
      findUser db.users user.username = some user →
      balancesNonneg db → balancesNonneg (buy_stock buy user oid tid db).2) ∧
    (∀ (buy : BuyStockRequest) (user : UserDoc) (oid tid : String) (db : DB)
        (m : Market) (stock : Stock),
      0 < buy.volume → db.market = some m → m.status = "open" →
      findStock db.stocks buy.stock_ticker = some stock →
      user.balance < buy.volume * stock.currentPrice →
      buy_stock buy user oid tid db =
        (.error ⟨400, .obj "Insufficient balance" "INSUFFICIENT_BALANCE"⟩, db)) ∧
    (∀ (amount : ℤ) (user : UserDoc) (oid tid : String) (db : DB),
      findUser db.users user.username = some user →
      balancesNonneg db → balancesNonneg (withdraw_cash amount user oid tid db).2) ∧
    (∀ (amount : ℤ) (user : UserDoc) (oid tid : String) (db : DB),
      0 < amount → user.balance < amount →
      withdraw_cash amount user oid tid db =
        (.error ⟨400,
          .obj "Insufficient balance for withdrawal" "INSUFFICIENT_BALANCE"⟩, db)) ∧
    (∀ (o : OrderCreate) (user : UserDoc) (db : DB),
      o.orderType = "buy" →
      balancesNonneg db → balancesNonneg (execute_order o user db).2) ∧
    (∀ (o : OrderCreate) (user : UserDoc) (db : DB) (stock : Stock),
      o.orderType = "buy" → findStock db.stocks o.stockTicker = some stock →
      user.balance < stock.currentPrice * o.volume →
      execute_order o user db =
        (.error ⟨400, .obj "Insufficient balance" "INSUFFICIENT_BALANCE"⟩, db)) ∧
    (∀ (username : String) (balance : ℤ) (current_user : UserDoc) (db : DB),
      balance < 0 →
      update_account_balance username balance current_user db =
        (.error ⟨400, .obj "Balance cannot be negative" "INVALID_BALANCE"⟩, db)) ∧
    (∀ (username : String) (balance : ℤ) (current_user : UserDoc) (db : DB),
      accountsNonneg db →
      accountsNonneg (update_account_balance username balance current_user db).2) := by
  refine ⟨?_, ?_, ?_, ?_, ?_, ?_, ?_, ?_⟩
  · intro buy user oid tid db hu hbal
    unfold buy_stock
    split
    · exact hbal
    split
    · exact hbal
    split
    · exact hbal
    split
    · exact hbal
    rename_i stock heq
    dsimp only
    split
    · exact hbal
    rename_i hnlt
    intro u' hmem
    rcases mem_updateFirstUser hmem with h1 | ⟨w, hw1, hw2⟩
    · exact hbal u' h1
    · rw [hu] at hw1
      injection hw1 with hw1
      subst hw1
      subst hw2
      dsimp only
      have := not_lt.mp hnlt
      omega
  · intro buy user oid tid db m stock hv hm hopen hst hlt
    unfold buy_stock
    rw [if_neg (not_le.mpr hv), hm]
    dsimp only
    rw [if_neg (by rw [hopen]; exact not_not_intro rfl), hst]
    dsimp only
    rw [if_pos hlt]
  · intro amount user oid tid db hu hbal
    unfold withdraw_cash
    split
    · exact hbal
    split
    · exact hbal
    rename_i hnlt
    split
    · exact hbal
    intro u' hmem
    rcases mem_updateFirstUser hmem with h1 | ⟨w, hw1, hw2⟩
    · exact hbal u' h1
    · rw [hu] at hw1
      injection hw1 with hw1
      subst hw1
      subst hw2
      dsimp only
      have := not_lt.mp hnlt
      omega
  · intro amount user oid tid db h0 hlt
    unfold withdraw_cash
    rw [if_neg (not_le.mpr h0), if_pos hlt]
  · intro o user db htype hbal
    unfold execute_order
    split
    · exact hbal
    rename_i stock heq
    dsimp only
    rw [if_pos htype]
    split
    · exact hbal
    rename_i hnlt
    dsimp only
    intro u' hmem
    rcases mem_updateFirstUser hmem with h1 | ⟨w, hw1, hw2⟩
    · exact hbal u' h1
    · subst hw2
      dsimp only
      have := not_lt.mp hnlt
      omega
  · intro o user db stock htype hst hlt
    unfold execute_order
    rw [hst]
    dsimp only
    rw [if_pos htype, if_pos hlt]
  · intro username balance current_user db hneg
    unfold update_account_balance
    rw [if_pos hneg]
  · intro username balance current_user db hbal
    unfold update_account_balance
    split
    · exact hbal
    rename_i hnneg
    split
    · exact hbal
    split
    · exact hbal
    dsimp only
    split
    all_goals
      intro a' hmem
      rcases mem_updateFirstAccount hmem with h1 | ⟨w, hw1, hw2⟩
      · exact hbal a' h1
      · subst hw2
        dsimp only
        exact not_lt.mp hnneg

/-- Witness for C3: bob, whose balance is 200, attempts to buy 5 AAPL
shares costing 250 in baseDB and is rejected with INSUFFICIENT_BALANCE. -/
theorem C3_witness :
    ((0 : ℤ) < 5 ∧ baseDB.market = some { marketID := 1, status := "open" } ∧
      Market.status { marketID := 1, status := "open" } = "open" ∧
      findStock baseDB.stocks "AAPL" = some aapl ∧
      bob.balance < 5 * aapl.currentPrice) ∧
    buy_stock { stock_ticker := "AAPL", volume := 5 } bob "o3" "t3" baseDB =
      (.error ⟨400, .obj "Insufficient balance" "INSUFFICIENT_BALANCE"⟩, baseDB) :=
  ⟨⟨by decide, rfl, rfl, rfl, by decide⟩,
    C3_balance_nonneg.2.1 { stock_ticker := "AAPL", volume := 5 } bob "o3" "t3" baseDB
      { marketID := 1, status := "open" } aapl (by decide) rfl rfl rfl (by decide)⟩

/-! ## C4 -/

/-- C4: sell volume cannot exceed portfolio holdings. Once the earlier
prerequisites pass (positive volume, open market, existing stock), a sell
through sell_stock whose requested volume exceeds the held volume is
rejected with HTTP 400 and code INSUFFICIENT_HOLDINGS and the database is
completely unchanged (no order, no transaction, no user update);
likewise execute_order with orderType sell rejects with HTTP 400 and code
INSUFFICIENT_STOCKS and changes nothing; and sell_stock errors exactly
when one of its prerequisites fails. -/
theorem C4_sell_holdings_check :
    (∀ (sell : SellStockRequest) (user : UserDoc) (oid tid : String) (db : DB)
        (m : Market) (stock : Stock),
      0 < sell.volume → db.market = some m → m.status = "open" →
      findStock db.stocks sell.stock_ticker = some stock →
      portfolioGet user.portfolio sell.stock_ticker < sell.volume →
      sell_stock sell user oid tid db =
        (.error ⟨400, .obj "Insufficient stock holdings" "INSUFFICIENT_HOLDINGS"⟩, db)) ∧
    (∀ (o : OrderCreate) (user : UserDoc) (db : DB) (stock : Stock),
      o.orderType = "sell" → findStock db.stocks o.stockTicker = some stock →
      portfolioGet user.portfolio o.stockTicker < o.volume →
      execute_order o user db =
        (.error ⟨400, .obj "Insufficient stock holdings" "INSUFFICIENT_STOCKS"⟩, db)) ∧
    (∀ (sell : SellStockRequest) (user : UserDoc) (oid tid : String) (db : DB),
      (∃ e, (sell_stock sell user oid tid db).1 = .error e) ↔
        (sell.volume ≤ 0 ∨ (∀ m, db.market = some m → m.status ≠ "open") ∨
          findStock db.stocks sell.stock_ticker = none ∨
          portfolioGet user.portfolio sell.stock_ticker < sell.volume)) := by
  refine ⟨?_, ?_, ?_⟩
  · intro sell user oid tid db m stock hv hm hopen hst hh
    unfold sell_stock
    rw [if_neg (not_le.mpr hv), hm]
    dsimp only
    rw [if_neg (by rw [hopen]; exact not_not_intro rfl), hst]
    dsimp only
    rw [if_pos hh]
  · intro o user db stock htype hst hh
    unfold execute_order
    rw [hst]
    dsimp only
    rw [if_neg (by rw [htype]; decide), if_pos htype, if_pos hh]
  · intro sell user oid tid db
    unfold sell_stock
    split
    · rename_i hv
      exact ⟨fun _ => Or.inl hv, fun _ => ⟨_, rfl⟩⟩
    rename_i hv
    split
    · rename_i hm
      refine ⟨fun _ => Or.inr (Or.inl ?_), fun _ => ⟨_, rfl⟩⟩
      intro m' hm'
      rw [hm] at hm'
      exact absurd hm' (by simp)
    rename_i m hm
    split
    · rename_i hso
      refine ⟨fun _ => Or.inr (Or.inl ?_), fun _ => ⟨_, rfl⟩⟩
      intro m' hm'
      rw [hm] at hm'
      injection hm' with h
      rw [← h]
      exact hso
    rename_i hso
    split
    · rename_i hstn
      exact ⟨fun _ => Or.inr (Or.inr (Or.inl hstn)), fun _ => ⟨_, rfl⟩⟩
    rename_i stock hst
    dsimp only
    split
    · rename_i hh
      exact ⟨fun _ => Or.inr (Or.inr (Or.inr hh)), fun _ => ⟨_, rfl⟩⟩
    rename_i hh
    constructor
    · rintro ⟨e, he⟩
      exact absurd he (by simp)
    · rintro (h | h | h | h)
      · exact absurd h hv
      · exact absurd (not_not.mp hso) (h m hm)
      · rw [hst] at h
        exact absurd h (by simp)
      · exact absurd h hh

/-- Witness for C4: bob holds 3 AAPL shares and attempts to sell 4 in
baseDB; sell_stock rejects with INSUFFICIENT_HOLDINGS and leaves the
database unchanged. -/
theorem C4_witness :
    ((0 : ℤ) < 4 ∧ baseDB.market = some { marketID := 1, status := "open" } ∧
      Market.status { marketID := 1, status := "open" } = "open" ∧
      findStock baseDB.stocks "AAPL" = some aapl ∧
      portfolioGet bob.portfolio "AAPL" < 4) ∧
    sell_stock { stock_ticker := "AAPL", volume := 4 } bob "o4" "t4" baseDB =
      (.error ⟨400, .obj "Insufficient stock holdings" "INSUFFICIENT_HOLDINGS"⟩, baseDB) :=
  ⟨⟨by decide, rfl, rfl, rfl, by decide⟩,
    C4_sell_holdings_check.1 { stock_ticker := "AAPL", volume := 4 } bob "o4" "t4" baseDB
      { marketID := 1, status := "open" } aapl (by decide) rfl rfl rfl (by decide)⟩

/-! ## C5 -/

/-- The usernames of the stored user documents are pairwise distinct. -/
def usernamesUnique (db : DB) : Prop := (db.users.map UserDoc.username).Nodup

instance (db : DB) : Decidable (usernamesUnique db) := List.nodupDecidable _

/-- An update request that renames alice to bob. -/
def renameAliceToBob : UserSignup :=
  { username := "bob", email := "alice@example.com", password := "newpassword",
    userType := "customer" }

/-- C5 counterexample: baseDB has pairwise distinct usernames, yet after
alice updates her own details with the new username bob (which already
belongs to another user), two user documents share the username bob:
update_user_details performs no uniqueness check on the new username. -/
theorem C5_counterexample :
    usernamesUnique baseDB ∧
    ¬ usernamesUnique
      (update_user_details "alice" renameAliceToBob alice "hnew" baseDB).2 := by
  constructor
  · decide
  · decide

/-- add_new_stock helper is below; this helper shows add_user preserves
username uniqueness. -/
theorem add_user_preserves_usernamesUnique (user : UserSignup) (uid : Nat)
    (hpw : String) (db : DB) (h : usernamesUnique db) :
    usernamesUnique (add_user user uid hpw db).2 := by
  unfold add_user
  split
  · exact h
  rename_i hnone
  unfold usernamesUnique at *
  dsimp only
  rw [List.map_append]
  rw [List.nodup_append]
  refine ⟨h, List.nodup_singleton _, ?_⟩
  intro a ha hb
  simp only [List.map_cons, List.map_nil, List.mem_singleton] at hb
  obtain ⟨u, hu, he⟩ := List.mem_map.mp ha
  subst hb
  exact (findUser_eq_none_iff db.users user.username).mp hnone u hu he

/-- C5 (amended): signup rejects a username that already exists with HTTP
400 and code USERNAME_EXISTS and add_user preserves username uniqueness;
update_user_details, however, performs no uniqueness check on the new
username, and renaming a user to the name of an existing user produces
two user documents sharing a username. -/
theorem C5_username_uniqueness :
    (∀ (user : UserSignup) (uid : Nat) (hpw : String) (db : DB) (u : UserDoc),
      findUser db.users user.username = some u →
      add_user user uid hpw db =
        (.error ⟨400,
          .obj ("Username " ++ user.username ++ " already exists.") "USERNAME_EXISTS"⟩,
          db)) ∧
    (∀ (user : UserSignup) (uid : Nat) (hpw : String) (db : DB),
      usernamesUnique db → usernamesUnique (add_user user uid hpw db).2) ∧
    (∃ (username : String) (user : UserSignup) (cu : UserDoc) (hpw : String) (db : DB),
      usernamesUnique db ∧
      ¬ usernamesUnique (update_user_details username user cu hpw db).2) := by
  refine ⟨?_, ?_, ?_⟩
  · intro user uid hpw db u h
    unfold add_user
    rw [h]
  · intro user uid hpw db h
    exact add_user_preserves_usernamesUnique user uid hpw db h
  · exact ⟨"alice", renameAliceToBob, alice, "hnew", baseDB, by decide, by decide⟩

/-- A signup request reusing the username alice. -/
def aliceDupSignup : UserSignup :=
  { username := "alice", email := "a2@example.com", password := "password2",
    userType := "customer" }

/-- Witness for C5 (amended): signing up with the existing username alice
in baseDB is rejected with USERNAME_EXISTS. -/
theorem C5_witness :
    findUser baseDB.users "alice" = some alice ∧
    add_user aliceDupSignup 9 "hpw9" baseDB =
      (.error ⟨400,
        .obj ("Username " ++ "alice" ++ " already exists.") "USERNAME_EXISTS"⟩,
        baseDB) :=
  ⟨by decide,
    C5_username_uniqueness.1 aliceDupSignup 9 "hpw9" baseDB alice (by decide)⟩

/-! ## C6 -/

/-- The tickers of the stored stock documents are pairwise distinct. -/
def tickersUnique (db : DB) : Prop := (db.stocks.map Stock.stockTicker).Nodup

instance (db : DB) : Decidable (tickersUnique db) := List.nodupDecidable _

/-- One call to add_new_stock preserves ticker uniqueness. -/
theorem add_new_stock_preserves_tickersUnique (stock : StockCreate) (gid : String)
    (db : DB) (h : tickersUnique db) : tickersUnique (add_new_stock stock gid db).2 := by
  unfold add_new_stock
  cases hfs : findStock db.stocks stock.stockTicker with
  | some s => simp only [hfs]; exact h
  | none =>
    simp only [hfs]
    unfold tickersUnique at *
    dsimp only
    rw [List.map_append]
    rw [List.nodup_append]
    refine ⟨h, List.nodup_singleton _, ?_⟩
    intro a ha hb
    simp only [List.map_cons, List.map_nil, List.mem_singleton] at hb
    obtain ⟨s, hs, he⟩ := List.mem_map.mp ha
    subst hb
    exact (findStock_eq_none_iff db.stocks stock.stockTicker).mp hfs s hs he

/-- C6: add_new_stock with a ticker already present rejects with HTTP 400
and code STOCK_ALREADY_EXISTS and inserts nothing; a single call
preserves ticker uniqueness; hence any sequence of add_new_stock calls
starting from a ticker-unique database leaves the tickers pairwise
distinct. -/
theorem C6_ticker_uniqueness :
    (∀ (stock : StockCreate) (gid : String) (db : DB) (s : Stock),
      findStock db.stocks stock.stockTicker = some s →
      add_new_stock stock gid db =
        (.error ⟨400, .obj "Stock already exists" "STOCK_ALREADY_EXISTS"⟩, db)) ∧
    (∀ (stock : StockCreate) (gid : String) (db : DB),
      tickersUnique db → tickersUnique (add_new_stock stock gid db).2) ∧
    (∀ (reqs : List (StockCreate × String)) (db : DB),
      tickersUnique db →
      tickersUnique (reqs.foldl (fun d rg => (add_new_stock rg.1 rg.2 d).2) db)) := by
  refine ⟨?_, ?_, ?_⟩
  · intro stock gid db s h
    unfold add_new_stock
    rw [h]
  · intro stock gid db h
    exact add_new_stock_preserves_tickersUnique stock gid db h
  · intro reqs
    induction reqs with
    | nil => intro db h; exact h
    | cons rg rest ih =>
      intro db h
      exact ih _ (add_new_stock_preserves_tickersUnique rg.1 rg.2 db h)

/-- A stock-creation request reusing the AAPL ticker. -/
def aaplCreate : StockCreate :=
  { stockTicker := "AAPL", companyName := "Apple Again", volume := 5,
    initialPrice := 1, currentPrice := 2, openingPrice := 3, highPrice := 4,
    lowPrice := 1, marketStatus := "open", stockID := some "sid2" }

/-- Witness for C6: adding a stock with the existing ticker AAPL to
baseDB is rejected with STOCK_ALREADY_EXISTS and baseDB stays
ticker-unique after any add_new_stock call. -/
theorem C6_witness :
    (findStock baseDB.stocks "AAPL" = some aapl ∧ tickersUnique baseDB) ∧
    add_new_stock aaplCreate "gid1" baseDB =
      (.error ⟨400, .obj "Stock already exists" "STOCK_ALREADY_EXISTS"⟩, baseDB) ∧
    tickersUnique (add_new_stock aaplCreate "gid1" baseDB).2 :=
  ⟨⟨by decide, by decide⟩,
    C6_ticker_uniqueness.1 aaplCreate "gid1" baseDB aapl (by decide),
    C6_ticker_uniqueness.2.1 aaplCreate "gid1" baseDB (by decide)⟩

/-! ## C7 -/

/-- A pending buy order of bob, cancellable and refundable. -/
def pendingBuyOrder : OrderDoc :=
  { orderID := "po1", username := "bob", stockTicker := some "AAPL", orderType := "buy",
    volume := 2, orderTotal := some 100, order_total := none, status := "pending",
    marketStatus := "open" }

/-- baseDB with the pending buy order of bob in the orders collection. -/
def orderDB : DB := { baseDB with orders := [pendingBuyOrder] }

/-- Every error of a handler result carries one of the documented HTTP
status codes. -/
def errStatusOk {α : Type} (r : Except HTTPError α × DB) : Prop :=
  ∀ e db2, r = (.error e, db2) → e.statusCode ∈ [400, 401, 403, 404, 500]

/-- C7 counterexample: the access-denied rejection of cancel_order is an
error response whose detail is the plain string "Access denied." with no
short code string, refuting the claim that every error body carries both
a message and a code. -/
theorem C7_counterexample :
    cancel_order "po1" alice orderDB = (.error ⟨403, .msg "Access denied."⟩, orderDB) ∧
    ErrDetail.code? (ErrDetail.msg "Access denied.") = none := by
  exact ⟨by rfl, rfl⟩

/-- C7 (amended): every error response produced by the modeled handlers
has an HTTP status code in the set 400, 401, 403, 404, 500 and a JSON
body carrying a message; the dict-shaped details also carry a short code
string, but several errors (access denied, plain not-found rejections)
carry only a plain message string without a code. -/
theorem C7_error_catalog :
    (∀ (buy : BuyStockRequest) (user : UserDoc) (oid tid : String) (db : DB),
      errStatusOk (buy_stock buy user oid tid db)) ∧
    (∀ (sell : SellStockRequest) (user : UserDoc) (oid tid : String) (db : DB),
      errStatusOk (sell_stock sell user oid tid db)) ∧
    (∀ (o : OrderCreate) (user : UserDoc) (db : DB),
      errStatusOk (execute_order o user db)) ∧
    (∀ (order_id : String) (user : UserDoc) (db : DB),
      errStatusOk (cancel_order order_id user db)) ∧
    (∀ (amount : ℤ) (user : UserDoc) (oid tid : String) (db : DB),
      errStatusOk (withdraw_cash amount user oid tid db)) ∧
    (∀ (user : UserSignup) (uid : Nat) (hpw : String) (db : DB),
      errStatusOk (add_user user uid hpw db)) ∧
    (∀ (username : String) (user : UserSignup) (cu : UserDoc) (hpw : String) (db : DB),
      errStatusOk (update_user_details username user cu hpw db)) ∧
    (∀ (username : String) (cu : UserDoc) (db : DB),
      errStatusOk (remove_user username cu db)) ∧
    (∀ (stock : StockCreate) (gid : String) (db : DB),
      errStatusOk (add_new_stock stock gid db)) ∧
    (∀ (username : String) (balance : ℤ) (cu : UserDoc) (db : DB),
      errStatusOk (update_account_balance username balance cu db)) := by
  refine ⟨?_, ?_, ?_, ?_, ?_, ?_, ?_, ?_, ?_, ?_⟩
  · intro buy user oid tid db
    unfold buy_stock errStatusOk
    intro e db2 he
    repeat (any_goals (first | (split at he) | (dsimp only at he)))
    all_goals
      rw [Prod.mk.injEq] at he
      obtain ⟨he1, he2⟩ := he
      first
        | (injection he1; done)
        | (injection he1 with he3; subst he3; decide)
        | (injection he1 with he3; subst he3; simp)
  · intro sell user oid tid db
    unfold sell_stock errStatusOk
    intro e db2 he
    repeat (any_goals (first | (split at he) | (dsimp only at he)))
    all_goals
      rw [Prod.mk.injEq] at he
      obtain ⟨he1, he2⟩ := he
      first
        | (injection he1; done)
        | (injection he1 with he3; subst he3; decide)
        | (injection he1 with he3; subst he3; simp)
  · intro o user db
    unfold execute_order errStatusOk
    intro e db2 he
    repeat (any_goals (first | (split at he) | (dsimp only at he)))
    all_goals
      rw [Prod.mk.injEq] at he
      obtain ⟨he1, he2⟩ := he
      first
        | (injection he1; done)
        | (injection he1 with he3; subst he3; decide)
        | (injection he1 with he3; subst he3; simp)
  · intro order_id user db
    unfold cancel_order errStatusOk
    intro e db2 he
    repeat (any_goals (first | (split at he) | (dsimp only at he)))
    all_goals
      rw [Prod.mk.injEq] at he
      obtain ⟨he1, he2⟩ := he
      first
        | (injection he1; done)
        | (injection he1 with he3; subst he3; decide)
        | (injection he1 with he3; subst he3; simp)
  · intro amount user oid tid db
    unfold withdraw_cash errStatusOk
    intro e db2 he
    repeat (any_goals (first | (split at he) | (dsimp only at he)))
    all_goals
      rw [Prod.mk.injEq] at he
      obtain ⟨he1, he2⟩ := he
      first
        | (injection he1; done)
        | (injection he1 with he3; subst he3; decide)
        | (injection he1 with he3; subst he3; simp)
  · intro user uid hpw db
    unfold add_user errStatusOk
    intro e db2 he
    repeat (any_goals (first | (split at he) | (dsimp only at he)))
    all_goals
      rw [Prod.mk.injEq] at he
      obtain ⟨he1, he2⟩ := he
      first
        | (injection he1; done)
        | (injection he1 with he3; subst he3; decide)
        | (injection he1 with he3; subst he3; simp)
  · intro username user cu hpw db
    unfold update_user_details errStatusOk
    intro e db2 he
    repeat (any_goals (first | (split at he) | (dsimp only at he)))
    all_goals
      rw [Prod.mk.injEq] at he
      obtain ⟨he1, he2⟩ := he
      first
        | (injection he1; done)
        | (injection he1 with he3; subst he3; decide)
        | (injection he1 with he3; subst he3; simp)
  · intro username cu db
    unfold remove_user errStatusOk
    intro e db2 he
    repeat (any_goals (first | (split at he) | (dsimp only at he)))
    all_goals
      rw [Prod.mk.injEq] at he
      obtain ⟨he1, he2⟩ := he
      first
        | (injection he1; done)
        | (injection he1 with he3; subst he3; decide)
        | (injection he1 with he3; subst he3; simp)
  · intro stock gid db
    unfold add_new_stock errStatusOk
    intro e db2 he
    repeat (any_goals (first | (split at he) | (dsimp only at he)))
    all_goals
      rw [Prod.mk.injEq] at he
      obtain ⟨he1, he2⟩ := he
      first
        | (injection he1; done)
        | (injection he1 with he3; subst he3; decide)
        | (injection he1 with he3; subst he3; simp)
  · intro username balance cu db
    unfold update_account_balance errStatusOk
    intro e db2 he
    repeat (any_goals (first | (split at he) | (dsimp only at he)))
    all_goals
      rw [Prod.mk.injEq] at he
      obtain ⟨he1, he2⟩ := he
      first
        | (injection he1; done)
        | (injection he1 with he3; subst he3; decide)
        | (injection he1 with he3; subst he3; simp)

/-- Witness for C7 (amended): the concrete 403 access-denied error of
cancel_order has a status code in the documented set. -/
theorem C7_witness :
    cancel_order "po1" alice orderDB = (.error ⟨403, .msg "Access denied."⟩, orderDB) ∧
    HTTPError.statusCode ⟨403, .msg "Access denied."⟩ ∈ [400, 401, 403, 404, 500] :=
  ⟨by rfl,
    C7_error_catalog.2.2.2.1 "po1" alice orderDB ⟨403, .msg "Access denied."⟩ orderDB
      (by rfl)⟩

/-! ## C8 -/

/-- Setting the status of the first matching order to canceled is visible
through findOrder. -/
theorem findOrder_set_canceled (orders : List OrderDoc) (oid : String) (order : OrderDoc)
    (hord : findOrder orders oid = some order) :
    findOrder (updateFirstOrder orders oid (fun o => { o with status := "canceled" })) oid =
      some { order with status := "canceled" } := by
  rw [findOrder_updateFirstOrder orders oid oid (fun o => { o with status := "canceled" })
    (fun o => rfl), if_pos rfl, hord]
  rfl

/-- C8: cancel_order on an order whose status is "completed" or
"canceled" (with the caller permitted to act on it) rejects with HTTP 400
and code INVALID_ORDER_STATUS and leaves the database, hence the order
record and the balance and portfolio of the user, unchanged; conversely a
successful cancellation only happens when the prior status was outside
that set, and it sets the order status to "canceled". -/
theorem C8_cancel_order_status :
    (∀ (order_id : String) (user : UserDoc) (db : DB) (order : OrderDoc),
      findOrder db.orders order_id = some order →
      (user.userType = "admin" ∨ order.username = user.username) →
      (order.status = "completed" ∨ order.status = "canceled") →
      cancel_order order_id user db =
        (.error ⟨400, .obj "Cannot cancel a completed or already canceled order"
          "INVALID_ORDER_STATUS"⟩, db)) ∧
    (∀ (order_id : String) (user : UserDoc) (db : DB) (order : OrderDoc)
        (r : String) (db2 : DB),
      findOrder db.orders order_id = some order →
      cancel_order order_id user db = (.ok r, db2) →
      order.status ≠ "completed" ∧ order.status ≠ "canceled" ∧
      findOrder db2.orders order_id = some { order with status := "canceled" }) := by
  constructor
  · intro order_id user db order hord hperm hstat
    unfold cancel_order
    rw [hord]
    dsimp only
    have hp : ¬(user.userType ≠ "admin" ∧ order.username ≠ user.username) := by
      rintro ⟨h1, h2⟩
      rcases hperm with h | h
      · exact h1 h
      · exact h2 h
    rw [if_neg hp, if_pos hstat]
  · intro order_id user db order r db2 hord h
    unfold cancel_order at h
    rw [hord] at h
    dsimp only at h
    split at h
    · exact absurd h (by simp)
    split at h
    · exact absurd h (by simp)
    rename_i hstat
    push_neg at hstat
    refine ⟨hstat.1, hstat.2, ?_⟩
    split at h
    · split at h
      · exact absurd h (by simp)
      · rw [Prod.mk.injEq] at h
        obtain ⟨h1, h2⟩ := h
        subst h2
        exact findOrder_set_canceled db.orders order_id order hord
    · split at h
      · split at h
        · exact absurd h (by simp)
        · rw [Prod.mk.injEq] at h
          obtain ⟨h1, h2⟩ := h
          subst h2
          exact findOrder_set_canceled db.orders order_id order hord
      · rw [Prod.mk.injEq] at h
        obtain ⟨h1, h2⟩ := h
        subst h2
        exact findOrder_set_canceled db.orders order_id order hord

/-- A completed sell order of bob, not cancellable. -/
def completedSellOrder : OrderDoc :=
  { orderID := "co1", username := "bob", stockTicker := some "AAPL", orderType := "sell",
    volume := 1, orderTotal := some 50, order_total := none, status := "completed",
    marketStatus := "open" }

/-- baseDB with the completed sell order of bob. -/
def completedOrderDB : DB := { baseDB with orders := [completedSellOrder] }

/-- Witness for C8: bob cancels his own completed order and is rejected
with INVALID_ORDER_STATUS, the database unchanged. -/
theorem C8_witness :
    (findOrder completedOrderDB.orders "co1" = some completedSellOrder ∧
      (bob.userType = "admin" ∨ completedSellOrder.username = bob.username) ∧
      (completedSellOrder.status = "completed" ∨ completedSellOrder.status = "canceled")) ∧
    cancel_order "co1" bob completedOrderDB =
      (.error ⟨400, .obj "Cannot cancel a completed or already canceled order"
        "INVALID_ORDER_STATUS"⟩, completedOrderDB) :=
  ⟨⟨by decide, Or.inr (by decide), Or.inl (by decide)⟩,
    C8_cancel_order_status.1 "co1" bob completedOrderDB completedSellOrder (by decide)
      (Or.inr (by decide)) (Or.inl (by decide))⟩

/-! ## C9 -/

/-- C9: the compensating update of cancel_order targets the document of
the CALLER, not of the order creator. When an admin who is not the
creator cancels a pending buy order, the orderTotal is credited to the
balance of the admin and the balance of the creator is unchanged; for a
pending sell order, the volume is added to the portfolio of the admin
while the portfolio of the creator is unchanged. -/
theorem C9_cancel_credits_caller :
    (∀ (order_id : String) (caller owner : UserDoc) (db : DB) (order : OrderDoc) (rt : ℤ),
      findOrder db.orders order_id = some order →
      order.orderType = "buy" → order.orderTotal = some rt →
      order.status ≠ "completed" → order.status ≠ "canceled" →
      caller.userType = "admin" →
      order.username = owner.username → caller.username ≠ owner.username →
      findUser db.users caller.username = some caller →
      findUser db.users owner.username = some owner →
      userBalance (cancel_order order_id caller db).2 caller.username =
        some (caller.balance + rt) ∧
      userBalance (cancel_order order_id caller db).2 owner.username =
        some owner.balance) ∧
    (∀ (order_id : String) (caller owner : UserDoc) (db : DB) (order : OrderDoc)
        (st : String),
      findOrder db.orders order_id = some order →
      order.orderType = "sell" → order.stockTicker = some st →
      order.status ≠ "completed" → order.status ≠ "canceled" →
      caller.userType = "admin" →
      order.username = owner.username → caller.username ≠ owner.username →
      findUser db.users caller.username = some caller →
      findUser db.users owner.username = some owner →
      userHolding (cancel_order order_id caller db).2 caller.username st =
        some (portfolioGet caller.portfolio st + order.volume) ∧
      userHolding (cancel_order order_id caller db).2 owner.username st =
        some (portfolioGet owner.portfolio st)) := by
  constructor
  · intro order_id caller owner db order rt hord htype htot hs1 hs2 hadmin hcreator hneq
      hcaller howner
    unfold cancel_order
    rw [hord]
    dsimp only
    have hp : ¬(caller.userType ≠ "admin" ∧ order.username ≠ caller.username) := by
      rintro ⟨h1, _⟩
      exact h1 hadmin
    rw [if_neg hp, if_neg (by rintro (h | h); exacts [hs1 h, hs2 h]), if_pos htype, htot]
    dsimp only
    constructor
    · unfold userBalance
      dsimp only
      rw [findUser_updateFirstUser db.users caller.username caller.username
        (fun u => { u with balance := u.balance + rt }) (fun u => rfl), if_pos rfl, hcaller]
      rfl
    · unfold userBalance
      dsimp only
      rw [findUser_updateFirstUser db.users caller.username owner.username
        (fun u => { u with balance := u.balance + rt }) (fun u => rfl),
        if_neg (fun hc => hneq hc.symm), howner]
      rfl
  · intro order_id caller owner db order st hord htype hticker hs1 hs2 hadmin hcreator hneq
      hcaller howner
    unfold cancel_order
    rw [hord]
    dsimp only
    have hp : ¬(caller.userType ≠ "admin" ∧ order.username ≠ caller.username) := by
      rintro ⟨h1, _⟩
      exact h1 hadmin
    rw [if_neg hp, if_neg (by rintro (h | h); exacts [hs1 h, hs2 h]),
      if_neg (by rw [htype]; decide), if_pos htype, hticker]
    dsimp only
    constructor
    · unfold userHolding
      dsimp only
      rw [findUser_updateFirstUser db.users caller.username caller.username
        (fun u => { u with portfolio := portfolioInc u.portfolio st order.volume })
        (fun u => rfl), if_pos rfl, hcaller]
      simp [portfolioGet_portfolioInc_self]
    · unfold userHolding
      dsimp only
      rw [findUser_updateFirstUser db.users caller.username owner.username
        (fun u => { u with portfolio := portfolioInc u.portfolio st order.volume })
        (fun u => rfl), if_neg (fun hc => hneq hc.symm), howner]
      rfl

/-- Witness for C9: admin carol cancels the pending buy order of bob in
orderDB; the 100 refund lands on the balance of carol (0 becomes 100)
while the balance of bob stays 200. -/
theorem C9_witness :
    (findOrder orderDB.orders "po1" = some pendingBuyOrder ∧
      pendingBuyOrder.orderType = "buy" ∧ pendingBuyOrder.orderTotal = some 100 ∧
      pendingBuyOrder.status ≠ "completed" ∧ pendingBuyOrder.status ≠ "canceled" ∧
      carol.userType = "admin" ∧ pendingBuyOrder.username = bob.username ∧
      carol.username ≠ "bob" ∧
      findUser orderDB.users "carol" = some carol ∧
      findUser orderDB.users "bob" = some bob) ∧
    userBalance (cancel_order "po1" carol orderDB).2 "carol" = some (carol.balance + 100) ∧
    userBalance (cancel_order "po1" carol orderDB).2 "bob" = some bob.balance := by
  refine ⟨⟨by decide, by decide, by decide, by decide, by decide, by decide, by decide,
    by decide, by decide, by decide⟩, ?_⟩
  exact C9_cancel_credits_caller.1 "po1" carol bob orderDB pendingBuyOrder 100
    (by decide) (by decide) (by decide) (by decide) (by decide) (by decide) (by decide)
    (by decide) (by decide) (by decide)

/-! ## C10 -/

/-- The order document execute_order inserts for a non-buy, non-sell
request. -/
def otherOrderDoc (o : OrderCreate) (user : UserDoc) (stock : Stock) : OrderDoc :=
  { orderID := o.orderID, username := user.username,
    stockTicker := some o.stockTicker, orderType := o.orderType,
    volume := o.volume, orderTotal := none,
    order_total := some (stock.currentPrice * o.volume),
    status := "completed", marketStatus := o.marketStatus }

/-- The transaction document execute_order inserts for a non-buy,
non-sell request. -/
def otherTxnDoc (o : OrderCreate) (user : UserDoc) (stock : Stock) : TransactionDoc :=
  { transactionID := none, orderID := o.orderID, username := user.username,
    stockTicker := some o.stockTicker, volume := some o.volume,
    price := some stock.currentPrice,
    totalPrice := some (stock.currentPrice * o.volume),
    transactionType := none, amount := none, balanceAfter := none }

/-- C10: execute_order with an orderType that is neither "buy" nor
"sell" performs no balance or holdings check and leaves the user
documents (balances and portfolios) entirely unchanged, yet it still
inserts an order record and a transaction record and marks the order
"completed". -/
theorem C10_execute_order_other_type
    (o : OrderCreate) (user : UserDoc) (db : DB) (stock : Stock)
    (hst : findStock db.stocks o.stockTicker = some stock)
    (hb : o.orderType ≠ "buy") (hs : o.orderType ≠ "sell") :
    execute_order o user db =
      (.ok (otherOrderDoc o user stock),
        { db with
          orders := db.orders ++ [otherOrderDoc o user stock],
          transactions := db.transactions ++ [otherTxnDoc o user stock] }) := by
  unfold execute_order
  rw [hst]
  dsimp only
  rw [if_neg hb, if_neg hs]
  rw [set_length_append]
  rfl

/-- A deposit-typed request to execute_order. -/
def depositOrder : OrderCreate :=
  { username := "alice", stockTicker := "AAPL", orderType := "deposit",
    volume := 1, status := "pending", marketStatus := "open", orderID := "do1" }

/-- Witness for C10: a deposit-typed order through execute_order inserts
an order and a transaction and touches no user document. -/
theorem C10_witness :
    (findStock baseDB.stocks "AAPL" = some aapl ∧
      depositOrder.orderType ≠ "buy" ∧ depositOrder.orderType ≠ "sell") ∧
    execute_order depositOrder alice baseDB =
      (.ok (otherOrderDoc depositOrder alice aapl),
        { baseDB with
          orders := baseDB.orders ++ [otherOrderDoc depositOrder alice aapl],
          transactions := baseDB.transactions ++ [otherTxnDoc depositOrder alice aapl] }) :=
  ⟨⟨by decide, by decide, by decide⟩,
    C10_execute_order_other_type depositOrder alice baseDB aapl
      (by decide) (by decide) (by decide)⟩

end StockService
